import Mathlib

/-!
Shallow embedding of the navigation/menu logic and the user-setting
coordinator hooks of the ConvergedRAG web frontend, together with proofs
about them.

The menu trees constructed by the sampled sources are at most two levels
deep: a list of top-level items, each optionally carrying a list of leaf
children. The embedding mirrors that shape.
-/

namespace ConvergedRAG

/-- A leaf entry of a menu (a child of a top-level item). -/
structure SubItem where
  key : String
  label : String
deriving Repr, DecidableEq

/-- A top-level menu item as built in the layout components: a key, a label
and an optional list of leaf children (empty list when the item is a leaf). -/
structure MenuItem where
  key : String
  label : String
  children : List SubItem
deriving Repr, DecidableEq

/-- All keys occurring in a menu tree, group nodes included. -/
def allKeys (items : List MenuItem) : List String :=
  (items.map (fun it => it.key :: it.children.map SubItem.key)).flatten

/-- The menu tree built in src/web/src/layouts/next.tsx (menuItems, lines
22-73). Labels stand for the translation keys passed to t. -/
def nextMenuItems : List MenuItem :=
  [ ⟨"/knowledge", "knowledgeBase", []⟩,
    ⟨"/chat", "chat", []⟩,
    ⟨"/search", "search", []⟩,
    ⟨"/flow", "flow", []⟩,
    ⟨"/file", "fileManager", []⟩,
    ⟨"/user", "userManager",
      [ ⟨"/user/profile", "profile"⟩,
        ⟨"/user/password", "password"⟩,
        ⟨"/user/team", "team"⟩,
        ⟨"/user/locale", "setting"⟩,
        ⟨"/user/logout", "logout"⟩ ]⟩,
    ⟨"/system", "systemManager",
      [ ⟨"/system/settingmodel", "modelProvider"⟩,
        ⟨"/system/sysinfo", "systeminfo"⟩,
        ⟨"/system/api", "api"⟩ ]⟩ ]

/-- JavaScript String.prototype.startsWith, modelled over the character
sequences of the two strings. -/
def jsStartsWith (s pre : String) : Bool :=
  pre.data.isPrefixOf s.data

/-- JavaScript disjunction specialised to an optional string and a default:
a missing or empty (falsy) string falls through to the default. -/
def jsOr (a : Option String) (dflt : String) : String :=
  match a with
  | some s => if s = "" then dflt else s
  | none => dflt

/-- Embeds selectedKey of src/web/src/layouts/next.tsx lines 75-83:
the key of the first top-level item whose key is a prefix of the current
pathname, falling back to /knowledge. Children are never consulted. -/
def selectedKey (items : List MenuItem) (pathname : String) : String :=
  jsOr ((items.find? (fun item => jsStartsWith pathname item.key)).map MenuItem.key)
    "/knowledge"

/-- The selectedKeys list handed to the Menu component: the single computed
key (next.tsx line 104). The component receives no openKeys. -/
def selectedKeys (items : List MenuItem) (pathname : String) : List String :=
  [selectedKey items pathname]

/-- The main menu items of the user-setting Sidebar
(src/web/src/pages/user-setting/index.tsx, mainMenuItems). -/
def mainMenuItems : List MenuItem :=
  [ ⟨"/datasets", "knowledgeBase", []⟩,
    ⟨"/next-chats", "chat", []⟩,
    ⟨"/next-searches", "search", []⟩,
    ⟨"/agents", "flow", []⟩,
    ⟨"/files", "fileManager", []⟩ ]

/-- The system-management submenu of the Sidebar (systemManagementItems). -/
def systemManagementItems : List SubItem :=
  [ ⟨"/user-setting/data-source", "sidebar.dataSource"⟩,
    ⟨"/user-setting/model", "sidebar.modelProvider"⟩,
    ⟨"/user-setting/mcp", "sidebar.mcp"⟩,
    ⟨"/user-setting/api", "sidebar.api"⟩,
    ⟨"/user-setting/system", "sidebar.sysinfo"⟩ ]

/-- The user-management submenu of the Sidebar (userManagementItems). -/
def userManagementItems : List SubItem :=
  [ ⟨"/user-setting/profile", "sidebar.profile"⟩,
    ⟨"/user-setting/team", "sidebar.teamManagement"⟩ ]

/-- The full Sidebar menu tree (items, src/web/src/pages/user-setting/index.tsx
lines 518-522): the main items followed by two group nodes, both constructed
with the empty string as their key. -/
def sidebarItems : List MenuItem :=
  mainMenuItems ++
    [ ⟨"", "sidebar.systemManagement", systemManagementItems⟩,
      ⟨"", "sidebar.userManagement", userManagementItems⟩ ]

/-- A navigation command issued to the router collaborator. -/
inductive NavEffect where
  | navigate (path : String)
deriving Repr, DecidableEq

/-- Embeds handleMenuClick of the Sidebar (user-setting/index.tsx lines
524-528): navigate exactly when the clicked key starts with a slash. -/
def handleMenuClick (key : String) : List NavEffect :=
  if jsStartsWith key "/" then [NavEffect.navigate key] else []

/-! ## Session/Tenant Action Coordinator (user-setting hooks) -/

/-- A call issued to the remote user/tenant API collaborator. Optional
fields mirror the object literals at the call sites: useHandleDeleteUser
sends only a userId, the reject branch of useHandleAgreeTenant and
useHandleQuitUser send both a userId and a tenantId. -/
inductive RemoteCall where
  | addTenantUser (email : String)
  | deleteTenantUser (userId : Option String) (tenantId : Option String)
  | agreeTenant (tenantId : String)
  | updateUserStatus (email : String) (state : String)
deriving Repr, DecidableEq

/-- Embeds handleAddUserOk of useAddUser (user-setting/index.tsx lines
39-47): issue the addTenantUser call; when the returned code is 0 hide the
adding-tenant modal, otherwise leave its visibility unchanged. The result is
the list of remote calls issued and the new modal visibility. -/
def handleAddUserOk (visible : Bool) (email : String) (code : Int) :
    List RemoteCall × Bool :=
  ([RemoteCall.addTenantUser email], if code = 0 then false else visible)

/-- Modelled from the spec: the invite dialog form component is not among
the sampled sources; per the spec its required-field check on the email runs
before any remote call, a failure is reported inline and no call is issued,
and a valid submission invokes handleAddUserOk (embedded from source).
The result is (remote calls issued, modal visibility, inline error shown). -/
def inviteUser (visible : Bool) (email : String) (code : Int) :
    List RemoteCall × Bool × Bool :=
  if email = "" then ([], visible, true)
  else
    let r := handleAddUserOk visible email code
    (r.1, r.2, false)

/-- The pending confirmation registered by showDeleteConfirm: it carries the
userId captured by the onOk closure. -/
structure DeleteConfirm where
  userId : String
deriving Repr, DecidableEq

/-- Embeds handleDeleteTenantUser of useHandleDeleteUser (user-setting/
index.tsx lines 62-72): invoking it only registers the confirmation dialog;
the delete call sits inside the onOk closure and no remote call is issued at
this point. -/
def handleDeleteTenantUser (userId : String) : List RemoteCall × DeleteConfirm :=
  ([], ⟨userId⟩)

/-- Embeds the onOk closure of the confirmation: exactly one deleteTenantUser
call carrying the captured userId; the returned code is awaited and ignored
(the `if (code === 0) \x7b\x7d` branch is empty). -/
def deleteConfirmOk (c : DeleteConfirm) (_code : Int) : List RemoteCall :=
  [RemoteCall.deleteTenantUser (some c.userId) none]

/-- Modelled from the spec: the useShowDeleteConfirm hook is not among the
sampled sources; per the spec, cancelling the confirmation never runs onOk
and is a no-op with no remote effect. -/
def deleteConfirmCancel (_c : DeleteConfirm) : List RemoteCall :=
  []

/-- Embeds handleAgree of useHandleAgreeTenant (user-setting/index.tsx lines
82-88): accept issues agreeTenant(tenantId); reject issues deleteTenantUser
with the tenantId and the current user id. -/
def handleAgree (currentUserId : String) (tenantId : String) (isAgree : Bool) :
    List RemoteCall :=
  if isAgree then [RemoteCall.agreeTenant tenantId]
  else [RemoteCall.deleteTenantUser (some currentUserId) (some tenantId)]

/-- Outcome of the asynchronous updateUserStatus mutation as seen by the
react-query callbacks: the promise either resolves (onSuccess fires) or
rejects with an error (onError fires). -/
inductive MutationOutcome where
  | success
  | failure (errorMsg : String)
deriving Repr, DecidableEq

/-- Observable effects of one run of the useUpdateUserStatus mutation. -/
structure MutationEffects where
  calls : List RemoteCall
  invalidated : List (List String)
  logs : List String
deriving Repr, DecidableEq

/-- Embeds useUpdateUserStatus (user-setting/index.tsx lines 111-129):
the mutation issues updateUserStatus(email, isActive ? on : off); onSuccess
invalidates the query keyed [listTenantUser]; onError logs the error and
invalidates nothing. -/
def runUpdateUserStatus (email : String) (isActive : Bool)
    (outcome : MutationOutcome) : MutationEffects :=
  { calls := [RemoteCall.updateUserStatus email (if isActive then "on" else "off")]
    invalidated :=
      match outcome with
      | MutationOutcome.success => [["listTenantUser"]]
      | MutationOutcome.failure _ => []
    logs :=
      match outcome with
      | MutationOutcome.success => []
      | MutationOutcome.failure m => ["Failed to update user status: " ++ m] }

/-- The tenant role enum (../constants, values per the spec data model). -/
inductive TenantRole where
  | owner
  | normal
deriving Repr, DecidableEq

/-- The edit buffer held by useEditUser (editingUser state). -/
structure EditingUser where
  userId : String
  nickname : String
  email : String
  role : TenantRole
deriving Repr, DecidableEq

/-- Observable effects of confirming the edit-user dialog. -/
structure EditOkEffects where
  calls : List RemoteCall
  logs : List String
  visible : Bool
  editingUser : Option EditingUser
deriving Repr, DecidableEq

/-- Embeds handleEditUserOk of useEditUser (user-setting/index.tsx lines
152-162): no remote call exists for updating a tenant user, so the handler
only writes a console log recording the would-be update, hides the editing
modal and clears the edit buffer. -/
def handleEditUserOk (editingUser : Option EditingUser)
    (_nickname : String) (_role : TenantRole) : EditOkEffects :=
  { calls := []
    logs :=
      [ "Would update user: " ++
          (match editingUser with
           | some u => u.userId
           | none => "undefined") ]
    visible := false
    editingUser := none }

/-! ## Claims -/

/-- C1, counterexample: the menu tree of layouts/next.tsx contains both the
key /user and the key /user/profile, yet resolving /user/profile/edit does
not put /user/profile into selectedKeys: the resolver scans only top-level
items and the first prefix match, /user, wins. -/
theorem c1_counterexample :
    "/user" ∈ allKeys nextMenuItems ∧
    "/user/profile" ∈ allKeys nextMenuItems ∧
    selectedKeys nextMenuItems "/user/profile/edit" = ["/user"] ∧
    (allKeys nextMenuItems).count "/user" = 1 := by
  decide

/-- C1, amended: resolving /user/profile/edit against the next.tsx menu
tree yields selectedKeys consisting exactly of /user, the first top-level
item whose key is a prefix of the path; child keys such as /user/profile are
never selected and the Menu component receives no openKeys. -/
theorem c1_amended :
    selectedKeys nextMenuItems "/user/profile/edit" = ["/user"] := by
  decide

/-- C2: invoking the invite flow with the empty email fails the
required-field validation: the inline error is shown, the dialog stays as it
was and zero remote calls (in particular no addTenantUser call) are issued,
whatever code the remote collaborator would have returned. -/
theorem c2_invite_empty_email_no_calls (visible : Bool) (code : Int) :
    (inviteUser visible "" code).1 = [] ∧
    (inviteUser visible "" code).2.1 = visible ∧
    (inviteUser visible "" code).2.2 = true := by
  simp [inviteUser]

/-- C3: with the invite dialog open, submitting any email issues exactly the
addTenantUser call for that email, and the dialog ends closed exactly when
the remote result code is 0; any nonzero code leaves it open. -/
theorem c3_invite_dialog_close_iff_success (email : String) (code : Int) :
    (handleAddUserOk true email code).1 = [RemoteCall.addTenantUser email] ∧
    ((handleAddUserOk true email code).2 = false ↔ code = 0) := by
  refine ⟨rfl, ?_⟩
  by_cases h : code = 0 <;> simp [handleAddUserOk, h]

/-- C4: invoking RemoveUser only registers the confirmation dialog and
issues zero remote calls; cancelling the confirmation issues no remote call;
confirming issues exactly one deleteTenantUser call carrying that userId. -/
theorem c4_delete_confirm_gated (userId : String) (code : Int) :
    (handleDeleteTenantUser userId).1 = [] ∧
    deleteConfirmCancel (handleDeleteTenantUser userId).2 = [] ∧
    deleteConfirmOk (handleDeleteTenantUser userId).2 code =
      [RemoteCall.deleteTenantUser (some userId) none] :=
  ⟨rfl, rfl, rfl⟩

/-- C5: for every email and activation flag, the updateUserStatus mutation
invalidates exactly the query keyed [listTenantUser] when the remote call
succeeds, and performs no cache invalidation when the remote call fails. -/
theorem c5_update_status_invalidation (email : String) (isActive : Bool)
    (msg : String) :
    (runUpdateUserStatus email isActive MutationOutcome.success).invalidated =
      [["listTenantUser"]] ∧
    (runUpdateUserStatus email isActive
      (MutationOutcome.failure msg)).invalidated = [] :=
  ⟨rfl, rfl⟩

/-- C6: accepting an invite issues exactly the agreeTenant call for the
tenantId and nothing else (in particular no delete call); rejecting issues
exactly one deleteTenantUser call carrying that tenantId and the current
user id, and nothing else (in particular no agree call). -/
theorem c6_agree_or_reject_calls (uid tid : String) :
    handleAgree uid tid true = [RemoteCall.agreeTenant tid] ∧
    handleAgree uid tid false =
      [RemoteCall.deleteTenantUser (some uid) (some tid)] :=
  ⟨rfl, rfl⟩

/-- C7: confirming the edit-user dialog issues no remote call, closes the
dialog and clears the edit buffer; the unimplemented update is recorded in a
console log naming the affected user, the only trace distinguishing it from
a silent success. -/
theorem c7_edit_user_unimplemented (u : EditingUser) (nick : String)
    (role : TenantRole) :
    (handleEditUserOk (some u) nick role).calls = [] ∧
    (handleEditUserOk (some u) nick role).visible = false ∧
    (handleEditUserOk (some u) nick role).editingUser = none ∧
    (handleEditUserOk (some u) nick role).logs =
      ["Would update user: " ++ u.userId] :=
  ⟨rfl, rfl, rfl, rfl⟩

/-- C8: when no key of the next.tsx menu tree is a prefix of the path, the
resolver returns the configured default /knowledge, which is the key of the
first top-level menu item. -/
theorem c8_no_match_default (p : String)
    (h : ∀ it ∈ nextMenuItems, jsStartsWith p it.key = false) :
    selectedKey nextMenuItems p = "/knowledge" ∧
    nextMenuItems.head?.map MenuItem.key = some "/knowledge" := by
  refine ⟨?_, rfl⟩
  have hn : nextMenuItems.find? (fun item => jsStartsWith p item.key) = none := by
    rw [List.find?_eq_none]
    intro x hx
    simp [h x hx]
  simp [selectedKey, hn, jsOr]

/-- C8, witness: the path /unknown matches no key and resolves to the
default /knowledge, the first top-level key. -/
theorem c8_no_match_default_witness :
    selectedKey nextMenuItems "/unknown" = "/knowledge" ∧
    nextMenuItems.head?.map MenuItem.key = some "/knowledge" :=
  c8_no_match_default "/unknown" (by decide)

/-- C9, counterexample: the Sidebar tree of user-setting/index.tsx has two
group nodes, at positions 5 and 6, that share the empty key, so keys are not
unique in that tree. -/
theorem c9_counterexample :
    (sidebarItems[5]?).map MenuItem.key = some "" ∧
    (sidebarItems[6]?).map MenuItem.key = some "" ∧
    (allKeys sidebarItems).count "" = 2 := by
  decide

/-- C9, amended: keys are unique in the next.tsx menu tree; in the Sidebar
tree the two group nodes share the empty key and, apart from that
duplication, all keys are distinct. -/
theorem c9_amended :
    (allKeys nextMenuItems).Nodup ∧
    ((allKeys sidebarItems).filter (fun k => k != "")).Nodup ∧
    (allKeys sidebarItems).count "" = 2 := by
  decide

/-- C10: a Sidebar menu click navigates exactly when the clicked key starts
with a slash: such a click issues the single navigation to that key, while a
click on a key that does not start with a slash issues no navigation at
all. -/
theorem c10_menu_click_navigation (key : String) :
    (jsStartsWith key "/" = true →
      handleMenuClick key = [NavEffect.navigate key]) ∧
    (jsStartsWith key "/" = false → handleMenuClick key = []) := by
  constructor <;> intro h <;> simp [handleMenuClick, h]

/-- C10, witness: clicking /datasets navigates there; clicking the empty
group-header key issues no navigation. -/
theorem c10_menu_click_navigation_witness :
    handleMenuClick "/datasets" = [NavEffect.navigate "/datasets"] ∧
    handleMenuClick "" = [] :=
  ⟨(c10_menu_click_navigation "/datasets").1 (by decide),
   (c10_menu_click_navigation "").2 (by decide)⟩

end ConvergedRAG
